import Mathlib

/-!
Verification of the freelru-otel instrumentation core (Go) against its
specification.  The embedding follows `src/instrumentation.go` (strict
variant: `registry.add` returns an error, `metricsRegistered` is an atomic
one-shot flag, a single callback observes all six metrics) together with
the strict map-based `cacheRegistry` of `src/unnamed/part_002`.  The
permissive slice-based registry of `src/unnamed/part_003` is embedded
separately in namespace `Permissive`.

Modelling decisions:
* `freelru.Metrics` exposes six `uint64` counters; they are embedded as
  `Nat` values and the Go conversion `int64(x)` performed by the callback
  is embedded explicitly as `int64OfUint64` (two's-complement wrap).
* A cache handle is fully described by the six counters its `Metrics()`
  method returns at sampling time, so `MetricsProvider` is `Metrics`.
* The metrics sink (`metric.Meter`) is abstract: for each instrument name
  it either succeeds or returns an error string, and `RegisterCallback`
  likewise; errors are propagated as the code does.  A ledger of
  `SinkEvent`s records every definition created and callback registered,
  so that "registered exactly once" is a statement about the ledger.
* The strict registry is a Go map `map[string]MetricsProvider`; it is
  embedded as an association list in insertion order.  Claims about it
  only use order-insensitive facts (lookups, filters, counts).
-/

/-- Metrics is the six-counter struct returned by a freelru cache's
Metrics() method; every field is a uint64 counter. -/
structure Metrics where
  Hits : Nat
  Misses : Nat
  Inserts : Nat
  Evictions : Nat
  Collisions : Nat
  Removals : Nat
deriving DecidableEq, Repr

/-- MetricsProvider is modelled by the counter values its Metrics() read
returns at sampling time. -/
abbrev MetricsProvider := Metrics

/-- Err is the type of Go error values surfaced by the registry and the
sink; propagation "verbatim" is equality of these values. -/
abbrev Err := String

/-- squote is the ASCII single-quote character used by the duplicate-name
error message format string. -/
def squote : String := String.singleton (Char.ofNat 39)

/-- dupErrMsg is the message built by fmt.Errorf in cacheRegistry.add of
part_002 when a name already exists. -/
def dupErrMsg (name : String) : String :=
  "cache with name " ++ squote ++ name ++ squote ++ " already exists"

/-- lookupName is the Go map lookup on the strict registry contents. -/
def lookupName (name : String) : List (String × MetricsProvider) → Option MetricsProvider
  | [] => none
  | e :: t => if e.1 = name then some e.2 else lookupName name t

namespace cacheRegistry

/-- add of the strict registry (part_002): returns an error and leaves the
contents unchanged when the name exists, otherwise stores the entry. -/
def add (r : List (String × MetricsProvider)) (cache : MetricsProvider) (name : String) :
    Except Err (List (String × MetricsProvider)) :=
  match lookupName name r with
  | some _ => .error (dupErrMsg name)
  | none => .ok (r ++ [(name, cache)])

/-- forEach of the strict registry: invokes the visitor on every entry and
accumulates the observations it emits. -/
def forEach (r : List (String × MetricsProvider))
    (f : String → MetricsProvider → List α) : List α :=
  match r with
  | [] => []
  | e :: t => f e.1 e.2 ++ forEach t f

/-- reset clears all entries (part_002, used by resetForTesting). -/
def reset (_ : List (String × MetricsProvider)) : List (String × MetricsProvider) := []

end cacheRegistry

/-- int64OfUint64 is the Go conversion int64(x) applied by the callback to
each uint64 counter: two's-complement reinterpretation. -/
def int64OfUint64 (n : Nat) : Int :=
  if n % 2 ^ 64 < 2 ^ 63 then ((n % 2 ^ 64 : Nat) : Int)
  else ((n % 2 ^ 64 : Nat) : Int) - 2 ^ 64

/-- Observation is one o.ObserveInt64 call made by the registered callback:
a metric name, the observed value, and the cache_name attribute. -/
structure Observation where
  metricName : String
  value : Int
  cacheName : String
deriving DecidableEq, Repr

/-- observeEntry is the body of the visitor inside the registered callback
(instrumentation.go lines 114-124): one Metrics() read followed by six
ObserveInt64 calls tagged with the entry's name. -/
def observeEntry (name : String) (cache : MetricsProvider) : List Observation :=
  [ ⟨"cache.hit", int64OfUint64 cache.Hits, name⟩,
    ⟨"cache.miss", int64OfUint64 cache.Misses, name⟩,
    ⟨"cache.insert", int64OfUint64 cache.Inserts, name⟩,
    ⟨"cache.eviction", int64OfUint64 cache.Evictions, name⟩,
    ⟨"cache.collision", int64OfUint64 cache.Collisions, name⟩,
    ⟨"cache.removal", int64OfUint64 cache.Removals, name⟩ ]

/-- callbackObservations is one invocation of the single registered
callback: registry.forEach with observeEntry as visitor. -/
def callbackObservations (r : List (String × MetricsProvider)) : List Observation :=
  cacheRegistry.forEach r observeEntry

/-- SinkEvent is a registration performed against the metrics sink: an
instrument definition created, or the multi-counter callback registered. -/
inductive SinkEvent where
  | defCreated (name : String) (descr : String)
  | callbackRegistered
deriving DecidableEq, Repr

/-- Meter is the abstract metric.Meter: creating a named instrument either
succeeds or yields an error, and RegisterCallback likewise. -/
structure Meter where
  counterErr : String → Option Err
  callbackErr : Option Err

/-- MeterProvider is the abstract metric.MeterProvider: its Meter call
with the library's scope name and version yields a meter or nil. -/
structure MeterProvider where
  meter : Option Meter

/-- config is the option-resolution struct of instrumentation.go. -/
structure config where
  meterProvider : MeterProvider

/-- Opt is the functional option type Option func(*config). -/
abbrev Opt := config → config

/-- WithMeterProvider sets a custom MeterProvider on the config. -/
def WithMeterProvider (provider : MeterProvider) : Opt :=
  fun c => { c with meterProvider := provider }

/-- resolveConfig is steps 44-51 of InstrumentCache: start from the ambient
default provider and apply each option in order. -/
def resolveConfig (dflt : MeterProvider) (opts : List Opt) : config :=
  opts.foldl (fun c o => o c) { meterProvider := dflt }

/-- metricDefs lists the six instrument names and descriptions created by
registerAllMetrics, in program order. -/
def metricDefs : List (String × String) :=
  [ ("cache.hit", "Number of cache hits"),
    ("cache.miss", "Number of cache misses"),
    ("cache.insert", "Number of cache inserts"),
    ("cache.eviction", "Number of cache evictions"),
    ("cache.collision", "Number of cache collisions"),
    ("cache.removal", "Number of cache removals") ]

/-- createCounters performs the successive Int64ObservableCounter calls of
registerAllMetrics: it stops at the first error, and the ledger records
every definition created before the failure. -/
def createCounters (m : Meter) : List (String × String) → Option Err × List SinkEvent
  | [] => (none, [])
  | (n, d) :: rest =>
    match m.counterErr n with
    | some e => (some e, [])
    | none =>
      match createCounters m rest with
      | (r, evs) => (r, SinkEvent.defCreated n d :: evs)

/-- registerAllMetrics creates the six observable counters and then
registers the single callback; the first sink error is returned as is. -/
def registerAllMetrics (m : Meter) : Except Err Unit × List SinkEvent :=
  match createCounters m metricDefs with
  | (some e, evs) => (.error e, evs)
  | (none, evs) =>
    match m.callbackErr with
    | some e => (.error e, evs)
    | none => (.ok (), evs ++ [SinkEvent.callbackRegistered])

/-- ProcState is the process-wide mutable state: the shared registry, the
one-shot metricsRegistered flag, and the ledger of sink registrations. -/
structure ProcState where
  registry : List (String × MetricsProvider)
  metricsRegistered : Bool
  sinkEvents : List SinkEvent
deriving DecidableEq, Repr

/-- initState is the state at process start: empty registry, flag unset. -/
def initState : ProcState := { registry := [], metricsRegistered := false, sinkEvents := [] }

/-- InstrumentCache embeds the facade of instrumentation.go: resolve the
config, add to the registry (propagating a failure immediately), win or
lose the one-shot compare-and-swap, handle a nil meter as a successful
no-op, and otherwise run registerAllMetrics against the meter. -/
def InstrumentCache (s : ProcState) (dflt : MeterProvider) (cache : MetricsProvider)
    (name : String) (opts : List Opt) : ProcState × Except Err Unit :=
  match cacheRegistry.add s.registry cache name with
  | .error e => (s, .error e)
  | .ok r =>
    if s.metricsRegistered then
      ({ s with registry := r }, .ok ())
    else
      match (resolveConfig dflt opts).meterProvider.meter with
      | none =>
        ({ registry := r, metricsRegistered := true, sinkEvents := s.sinkEvents }, .ok ())
      | some m =>
        ({ registry := r, metricsRegistered := true,
           sinkEvents := s.sinkEvents ++ (registerAllMetrics m).2 },
         (registerAllMetrics m).1)

/-- resetForTesting (part_002) clears the registry and re-arms the
one-shot registration gate; in the part_002 snapshot the gate is the
sync.Once value metricsOnce, whose replacement by a fresh sync.Once is
exactly a reset of the flag to unregistered. The sink ledger is not
touched: nothing is unregistered from the sink. -/
def resetForTesting (s : ProcState) : ProcState :=
  { registry := cacheRegistry.reset s.registry, metricsRegistered := false,
    sinkEvents := s.sinkEvents }

/-- CallSpec describes one InstrumentCache call of a sequence. -/
structure CallSpec where
  cache : MetricsProvider
  name : String
  opts : List Opt

/-- step runs one call of a sequence, keeping the resulting state. -/
def step (dflt : MeterProvider) (s : ProcState) (c : CallSpec) : ProcState :=
  (InstrumentCache s dflt c.cache c.name c.opts).1

/-- runCalls folds a sequence of InstrumentCache calls over the state. -/
def runCalls (dflt : MeterProvider) (s : ProcState) (cs : List CallSpec) : ProcState :=
  cs.foldl (step dflt) s

/-- Meter.good states that the sink accepts every instrument creation and
the callback registration. -/
def Meter.good (m : Meter) : Prop :=
  (∀ n, m.counterErr n = none) ∧ m.callbackErr = none

/-- fullEvents is the complete registration performed by one successful
run of registerAllMetrics: the six definitions, each once, then the single
callback. -/
def fullEvents : List SinkEvent :=
  [ SinkEvent.defCreated "cache.hit" "Number of cache hits",
    SinkEvent.defCreated "cache.miss" "Number of cache misses",
    SinkEvent.defCreated "cache.insert" "Number of cache inserts",
    SinkEvent.defCreated "cache.eviction" "Number of cache evictions",
    SinkEvent.defCreated "cache.collision" "Number of cache collisions",
    SinkEvent.defCreated "cache.removal" "Number of cache removals",
    SinkEvent.callbackRegistered ]

namespace Permissive

/-- instrumentedCache (part_003) pairs a cache with its name. -/
structure instrumentedCache where
  cache : MetricsProvider
  name : String
deriving DecidableEq, Repr

/-- add of the permissive registry (part_003): always appends. -/
def add (r : List instrumentedCache) (cache : MetricsProvider) (name : String) :
    List instrumentedCache :=
  r ++ [{ cache := cache, name := name }]

/-- forEach of the permissive registry: applies the visitor to every entry
in slice order and collects the results. -/
def forEach (r : List instrumentedCache) (f : instrumentedCache → α) : List α :=
  r.map f

/-- runAdds folds a sequence of permissive add calls over the registry. -/
def runAdds (r : List instrumentedCache) (cs : List (MetricsProvider × String)) :
    List instrumentedCache :=
  cs.foldl (fun acc c => add acc c.1 c.2) r

end Permissive

section Helpers

/-- Sample counter values used by the concrete witnesses. -/
def m1 : Metrics := { Hits := 1, Misses := 1, Inserts := 2, Evictions := 0, Collisions := 0, Removals := 0 }

/-- Second sample counter record, distinct from m1. -/
def m2 : Metrics := { Hits := 7, Misses := 3, Inserts := 9, Evictions := 1, Collisions := 2, Removals := 4 }

/-- A provider whose Meter call returns nil. -/
def provNil : MeterProvider := { meter := none }

/-- A meter that accepts every instrument and the callback. -/
def okMeter : Meter := { counterErr := fun _ => none, callbackErr := none }

/-- A provider handing out the fully accepting meter. -/
def okProvider : MeterProvider := { meter := some okMeter }

/-- A meter that rejects the creation of the cache.insert instrument. -/
def badMeter : Meter :=
  { counterErr := fun n => if n = "cache.insert" then some "boom" else none,
    callbackErr := none }

/-- A provider handing out the rejecting meter. -/
def badProvider : MeterProvider := { meter := some badMeter }

theorem lookupName_nil (name : String) : lookupName name [] = none := rfl

theorem add_empty (cache : MetricsProvider) (name : String) :
    cacheRegistry.add [] cache name = .ok [(name, cache)] := rfl

theorem registerAllMetrics_good (m : Meter) (h : m.good) :
    registerAllMetrics m = (.ok (), fullEvents) := by
  obtain ⟨h1, h2⟩ := h
  simp [registerAllMetrics, createCounters, metricDefs, h1, h2, fullEvents]

theorem InstrumentCache_flagged (s : ProcState) (dflt : MeterProvider)
    (cache : MetricsProvider) (name : String) (opts : List Opt)
    (r : List (String × MetricsProvider))
    (hflag : s.metricsRegistered = true)
    (hadd : cacheRegistry.add s.registry cache name = .ok r) :
    InstrumentCache s dflt cache name opts = ({ s with registry := r }, .ok ()) := by
  unfold InstrumentCache
  rw [hadd, hflag]
  simp

theorem step_flagged (dflt : MeterProvider) (s : ProcState) (c : CallSpec)
    (hflag : s.metricsRegistered = true) :
    (step dflt s c).metricsRegistered = true ∧ (step dflt s c).sinkEvents = s.sinkEvents := by
  unfold step InstrumentCache
  cases hadd : cacheRegistry.add s.registry c.cache c.name with
  | error e => simp [hadd, hflag]
  | ok r => simp [hadd, hflag]

theorem runCalls_flagged (dflt : MeterProvider) (cs : List CallSpec) :
    ∀ s : ProcState, s.metricsRegistered = true →
      (runCalls dflt s cs).metricsRegistered = true ∧
      (runCalls dflt s cs).sinkEvents = s.sinkEvents := by
  induction cs with
  | nil => intro s h; exact ⟨h, rfl⟩
  | cons c t ih =>
    intro s h
    have hs := step_flagged dflt s c h
    have ht := ih (step dflt s c) hs.1
    exact ⟨ht.1, ht.2.trans hs.2⟩

theorem InstrumentCache_first (s : ProcState) (dflt : MeterProvider)
    (cache : MetricsProvider) (name : String) (opts : List Opt)
    (r : List (String × MetricsProvider)) (m : Meter)
    (hflag : s.metricsRegistered = false)
    (hadd : cacheRegistry.add s.registry cache name = .ok r)
    (hm : (resolveConfig dflt opts).meterProvider.meter = some m) :
    InstrumentCache s dflt cache name opts =
      ({ registry := r, metricsRegistered := true,
         sinkEvents := s.sinkEvents ++ (registerAllMetrics m).2 },
       (registerAllMetrics m).1) := by
  unfold InstrumentCache
  rw [hadd, hflag, hm]
  simp

end Helpers

/-- Claim C3: in the strict variant, adding a handle under a name already
present fails with the deterministic duplicate-name message, and the whole
InstrumentCache call leaves the process state, including the mapping
previously stored under that name, unchanged. -/
theorem C3_strict_duplicate_add (s : ProcState) (dflt : MeterProvider)
    (cache h0 : MetricsProvider) (name : String) (opts : List Opt)
    (hlook : lookupName name s.registry = some h0) :
    cacheRegistry.add s.registry cache name = .error (dupErrMsg name) ∧
    InstrumentCache s dflt cache name opts = (s, .error (dupErrMsg name)) ∧
    lookupName name (InstrumentCache s dflt cache name opts).1.registry = some h0 := by
  have hadd : cacheRegistry.add s.registry cache name = .error (dupErrMsg name) := by
    unfold cacheRegistry.add
    rw [hlook]
  have hcall : InstrumentCache s dflt cache name opts = (s, .error (dupErrMsg name)) := by
    unfold InstrumentCache
    rw [hadd]
  exact ⟨hadd, hcall, by rw [hcall]; exact hlook⟩

/-- Witness for C3 at a concrete registry holding m1 under the name a. -/
theorem C3_strict_duplicate_add_witness :
    InstrumentCache { registry := [("a", m1)], metricsRegistered := false, sinkEvents := [] }
        provNil m2 "a" [] =
      ({ registry := [("a", m1)], metricsRegistered := false, sinkEvents := [] },
       .error (dupErrMsg "a")) :=
  (C3_strict_duplicate_add
    { registry := [("a", m1)], metricsRegistered := false, sinkEvents := [] }
    provNil m2 m1 "a" [] rfl).2.1

/-- Claim C4: in the strict variant, a failed registry add makes the whole
InstrumentCache call return that error with the state untouched: the
one-shot flag is not flipped, no meter is consulted and no sink
registration happens. -/
theorem C4_failed_add_short_circuits (s : ProcState) (dflt : MeterProvider)
    (cache : MetricsProvider) (name : String) (opts : List Opt) (e : Err)
    (hadd : cacheRegistry.add s.registry cache name = .error e) :
    InstrumentCache s dflt cache name opts = (s, .error e) := by
  unfold InstrumentCache
  rw [hadd]

/-- Witness for C4: a duplicate add against a flag-unset state returns the
error and flips nothing, even with a fully working provider supplied. -/
theorem C4_failed_add_short_circuits_witness :
    InstrumentCache { registry := [("a", m1)], metricsRegistered := false, sinkEvents := [] }
        provNil m2 "a" [WithMeterProvider okProvider] =
      ({ registry := [("a", m1)], metricsRegistered := false, sinkEvents := [] },
       .error (dupErrMsg "a")) :=
  C4_failed_add_short_circuits
    { registry := [("a", m1)], metricsRegistered := false, sinkEvents := [] }
    provNil m2 "a" [WithMeterProvider okProvider] (dupErrMsg "a") rfl

/-- Claim C7: on the first call, when the resolved provider hands out a nil
meter, InstrumentCache succeeds as a no-op: the entry is stored, the flag
flips, and nothing is registered with the sink. -/
theorem C7_nil_meter_noop (s : ProcState) (dflt : MeterProvider)
    (cache : MetricsProvider) (name : String) (opts : List Opt)
    (r : List (String × MetricsProvider))
    (hflag : s.metricsRegistered = false)
    (hadd : cacheRegistry.add s.registry cache name = .ok r)
    (hm : (resolveConfig dflt opts).meterProvider.meter = none) :
    InstrumentCache s dflt cache name opts =
      ({ registry := r, metricsRegistered := true, sinkEvents := s.sinkEvents }, .ok ()) := by
  unfold InstrumentCache
  rw [hadd, hflag, hm]
  simp

/-- Witness for C7 at the initial state with the ambient provider nil. -/
theorem C7_nil_meter_noop_witness :
    InstrumentCache initState provNil m1 "a" [] =
      ({ registry := [("a", m1)], metricsRegistered := true, sinkEvents := [] }, .ok ()) :=
  C7_nil_meter_noop initState provNil m1 "a" [] [("a", m1)] rfl rfl rfl

/-- Claim C8: the permissive add always succeeds and appends, and after any
sequence of adds, duplicates included, forEach visits every entry exactly
once in insertion order with all duplicate-named entries preserved. -/
theorem C8_permissive_append_forEach (r0 : List Permissive.instrumentedCache)
    (cs : List (MetricsProvider × String)) :
    Permissive.runAdds r0 cs =
      r0 ++ cs.map (fun c => { cache := c.1, name := c.2 }) ∧
    Permissive.forEach (Permissive.runAdds r0 cs) id =
      r0 ++ cs.map (fun c => { cache := c.1, name := c.2 }) := by
  have hrun : ∀ (cs : List (MetricsProvider × String)) (r : List Permissive.instrumentedCache),
      Permissive.runAdds r cs = r ++ cs.map (fun c => { cache := c.1, name := c.2 }) := by
    intro cs
    induction cs with
    | nil => intro r; simp [Permissive.runAdds]
    | cons c t ih =>
      intro r
      have hstep : Permissive.runAdds r (c :: t) =
          Permissive.runAdds (Permissive.add r c.1 c.2) t := rfl
      rw [hstep, ih, Permissive.add]
      simp
  refine ⟨hrun cs r0, ?_⟩
  rw [hrun cs r0]
  simp [Permissive.forEach]

/-- Claim C9: option resolution starts from the ambient default provider,
applies options in order with later ones overriding earlier ones, and when
several WithMeterProvider options are supplied the last one supplied
determines the provider used by the whole call. -/
theorem C9_last_option_wins (dflt : MeterProvider) (opts : List Opt) (p : MeterProvider) :
    resolveConfig dflt [] = { meterProvider := dflt } ∧
    resolveConfig dflt (opts ++ [WithMeterProvider p]) = { meterProvider := p } ∧
    ∀ (s : ProcState) (cache : MetricsProvider) (name : String),
      InstrumentCache s dflt cache name (opts ++ [WithMeterProvider p]) =
        InstrumentCache s dflt cache name [WithMeterProvider p] := by
  have hlast : resolveConfig dflt (opts ++ [WithMeterProvider p]) = { meterProvider := p } := by
    unfold resolveConfig
    rw [List.foldl_append]
    rfl
  have hsingle : resolveConfig dflt [WithMeterProvider p] = { meterProvider := p } := rfl
  refine ⟨rfl, hlast, ?_⟩
  intro s cache name
  unfold InstrumentCache
  rw [hlast, hsingle]

/-- Claim C1: in one epoch the six definitions and the single callback are
registered exactly once: after the first call, whose resolved meter the
sink accepts, the sink ledger holds exactly the six definitions and one
callback, any further sequence of calls leaves the ledger unchanged, and
every later successful call returns success immediately while performing
no sink registration. -/
theorem C1_registration_once (dflt : MeterProvider) (c : CallSpec) (cs : List CallSpec)
    (m : Meter)
    (hm : (resolveConfig dflt c.opts).meterProvider.meter = some m)
    (hgood : m.good) :
    (step dflt initState c).sinkEvents = fullEvents ∧
    (runCalls dflt initState (c :: cs)).sinkEvents = fullEvents ∧
    ∀ (s : ProcState) (cache : MetricsProvider) (name : String) (opts : List Opt)
        (r : List (String × MetricsProvider)),
      s.metricsRegistered = true →
      cacheRegistry.add s.registry cache name = .ok r →
      InstrumentCache s dflt cache name opts = ({ s with registry := r }, .ok ()) := by
  have hreg := registerAllMetrics_good m hgood
  have hstep : step dflt initState c =
      { registry := [(c.name, c.cache)], metricsRegistered := true, sinkEvents := fullEvents } := by
    unfold step
    rw [InstrumentCache_first initState dflt c.cache c.name c.opts [(c.name, c.cache)] m rfl
      (add_empty c.cache c.name) hm, hreg]
    simp [initState]
  have hrest := runCalls_flagged dflt cs
    { registry := [(c.name, c.cache)], metricsRegistered := true, sinkEvents := fullEvents } rfl
  refine ⟨by rw [hstep], ?_, ?_⟩
  · have : runCalls dflt initState (c :: cs) = runCalls dflt (step dflt initState c) cs := rfl
    rw [this, hstep]
    exact hrest.2
  · intro s cache name opts r hflag hadd
    exact InstrumentCache_flagged s dflt cache name opts r hflag hadd

/-- Witness for C1: a first call with a fully accepting provider followed
by two further calls leaves exactly one full registration in the ledger. -/
theorem C1_registration_once_witness :
    (runCalls provNil initState
      [ { cache := m1, name := "a", opts := [WithMeterProvider okProvider] },
        { cache := m2, name := "b", opts := [] },
        { cache := m1, name := "c", opts := [WithMeterProvider okProvider] } ]).sinkEvents =
      fullEvents :=
  (C1_registration_once provNil
    { cache := m1, name := "a", opts := [WithMeterProvider okProvider] }
    [ { cache := m2, name := "b", opts := [] },
      { cache := m1, name := "c", opts := [WithMeterProvider okProvider] } ]
    okMeter rfl ⟨fun _ => rfl, rfl⟩).2.1

/-- Claim C5: resetForTesting empties the registry and re-arms the one-shot
gate, and the next InstrumentCache call re-enters the first-call path,
re-registering the six definitions and the callback against the sink. -/
theorem C5_reset_rearms (s : ProcState) (dflt : MeterProvider)
    (cache : MetricsProvider) (name : String) (opts : List Opt) (m : Meter)
    (hm : (resolveConfig dflt opts).meterProvider.meter = some m)
    (hgood : m.good) :
    (resetForTesting s).registry = [] ∧
    (resetForTesting s).metricsRegistered = false ∧
    InstrumentCache (resetForTesting s) dflt cache name opts =
      ({ registry := [(name, cache)], metricsRegistered := true,
         sinkEvents := s.sinkEvents ++ fullEvents }, .ok ()) := by
  refine ⟨rfl, rfl, ?_⟩
  rw [InstrumentCache_first (resetForTesting s) dflt cache name opts [(name, cache)] m rfl
    (add_empty cache name) hm, registerAllMetrics_good m hgood]
  simp [resetForTesting]

/-- Witness for C5: resetting a fully populated, already registered state
and calling again performs one fresh full registration. -/
theorem C5_reset_rearms_witness :
    InstrumentCache
        (resetForTesting
          { registry := [("a", m1)], metricsRegistered := true, sinkEvents := fullEvents })
        provNil m2 "b" [WithMeterProvider okProvider] =
      ({ registry := [("b", m2)], metricsRegistered := true,
         sinkEvents := fullEvents ++ fullEvents }, .ok ()) :=
  (C5_reset_rearms
    { registry := [("a", m1)], metricsRegistered := true, sinkEvents := fullEvents }
    provNil m2 "b" [WithMeterProvider okProvider] okMeter rfl ⟨fun _ => rfl, rfl⟩).2.2

/-- Claim C6: a sink error raised while creating an instrument or
registering the callback is returned verbatim by the first successful
call, and a call made after the flag is set can only return success or the
duplicate-name error, never a sink error. -/
theorem C6_sink_error_verbatim (s : ProcState) (dflt : MeterProvider)
    (cache : MetricsProvider) (name : String) (opts : List Opt) :
    (∀ (m : Meter) (e : Err) (evs : List SinkEvent) (r : List (String × MetricsProvider)),
      s.metricsRegistered = false →
      cacheRegistry.add s.registry cache name = .ok r →
      (resolveConfig dflt opts).meterProvider.meter = some m →
      registerAllMetrics m = (.error e, evs) →
      InstrumentCache s dflt cache name opts =
        ({ registry := r, metricsRegistered := true, sinkEvents := s.sinkEvents ++ evs },
         .error e)) ∧
    (s.metricsRegistered = true →
      (InstrumentCache s dflt cache name opts).2 = .ok () ∨
      (InstrumentCache s dflt cache name opts).2 = .error (dupErrMsg name)) := by
  constructor
  · intro m e evs r hflag hadd hm hreg
    rw [InstrumentCache_first s dflt cache name opts r m hflag hadd hm, hreg]
  · intro hflag
    unfold InstrumentCache cacheRegistry.add
    cases hlook : lookupName name s.registry with
    | some h0 => right; rfl
    | none => left; simp [hflag]

/-- Witness for C6: the rejecting meter's error is returned verbatim by the
first call, and a call against an already registered state succeeds. -/
theorem C6_sink_error_verbatim_witness :
    InstrumentCache initState provNil m1 "a" [WithMeterProvider badProvider] =
      ({ registry := [("a", m1)], metricsRegistered := true,
         sinkEvents :=
           [ SinkEvent.defCreated "cache.hit" "Number of cache hits",
             SinkEvent.defCreated "cache.miss" "Number of cache misses" ] },
       .error "boom") ∧
    ((InstrumentCache
        { registry := [("a", m1)], metricsRegistered := true, sinkEvents := [] }
        provNil m2 "b" [WithMeterProvider badProvider]).2 = .ok () ∨
     (InstrumentCache
        { registry := [("a", m1)], metricsRegistered := true, sinkEvents := [] }
        provNil m2 "b" [WithMeterProvider badProvider]).2 = .error (dupErrMsg "b")) :=
  ⟨by
    have h := (C6_sink_error_verbatim initState provNil m1 "a"
      [WithMeterProvider badProvider]).1 badMeter "boom"
      [ SinkEvent.defCreated "cache.hit" "Number of cache hits",
        SinkEvent.defCreated "cache.miss" "Number of cache misses" ]
      [("a", m1)] rfl rfl rfl rfl
    simpa [initState] using h,
   (C6_sink_error_verbatim
      { registry := [("a", m1)], metricsRegistered := true, sinkEvents := [] }
      provNil m2 "b" [WithMeterProvider badProvider]).2 rfl⟩

/-- Claim C10: when registration fails on the first call, the call is not
atomic: the entry stays in the registry, the one-shot flag stays set, the
error is returned, and every later call with a fresh name succeeds without
any new sink registration attempt. -/
theorem C10_failed_registration_not_atomic (dflt : MeterProvider)
    (cache : MetricsProvider) (name : String) (opts : List Opt)
    (m : Meter) (e : Err) (evs : List SinkEvent)
    (hm : (resolveConfig dflt opts).meterProvider.meter = some m)
    (hreg : registerAllMetrics m = (.error e, evs)) :
    (InstrumentCache initState dflt cache name opts).2 = .error e ∧
    (InstrumentCache initState dflt cache name opts).1 =
      { registry := [(name, cache)], metricsRegistered := true, sinkEvents := evs } ∧
    ∀ (cache2 : MetricsProvider) (name2 : String) (opts2 : List Opt),
      name2 ≠ name →
      InstrumentCache
          { registry := [(name, cache)], metricsRegistered := true, sinkEvents := evs }
          dflt cache2 name2 opts2 =
        ({ registry := [(name, cache), (name2, cache2)], metricsRegistered := true,
           sinkEvents := evs }, .ok ()) := by
  have hfirst := InstrumentCache_first initState dflt cache name opts [(name, cache)] m rfl
    (add_empty cache name) hm
  rw [hreg] at hfirst
  refine ⟨by rw [hfirst], by rw [hfirst]; simp [initState], ?_⟩
  intro cache2 name2 opts2 hne
  have hadd : cacheRegistry.add [(name, cache)] cache2 name2 =
      .ok [(name, cache), (name2, cache2)] := by
    unfold cacheRegistry.add lookupName
    rw [if_neg (fun h => hne h.symm)]
    rfl
  exact InstrumentCache_flagged
    { registry := [(name, cache)], metricsRegistered := true, sinkEvents := evs }
    dflt cache2 name2 opts2 [(name, cache), (name2, cache2)] rfl hadd

/-- Witness for C10 with the rejecting meter: the first call errors but
keeps its entry and the flag, and a second distinct-name call succeeds
without touching the sink ledger. -/
theorem C10_failed_registration_not_atomic_witness :
    (InstrumentCache initState provNil m1 "a" [WithMeterProvider badProvider]).2 =
      .error "boom" ∧
    InstrumentCache
        ({ registry := [("a", m1)], metricsRegistered := true,
           sinkEvents :=
             [ SinkEvent.defCreated "cache.hit" "Number of cache hits",
               SinkEvent.defCreated "cache.miss" "Number of cache misses" ] })
        provNil m2 "b" [] =
      ({ registry := [("a", m1), ("b", m2)], metricsRegistered := true,
         sinkEvents :=
           [ SinkEvent.defCreated "cache.hit" "Number of cache hits",
             SinkEvent.defCreated "cache.miss" "Number of cache misses" ] }, .ok ()) :=
  ⟨(C10_failed_registration_not_atomic provNil m1 "a" [WithMeterProvider badProvider]
      badMeter "boom"
      [ SinkEvent.defCreated "cache.hit" "Number of cache hits",
        SinkEvent.defCreated "cache.miss" "Number of cache misses" ] rfl rfl).1,
   (C10_failed_registration_not_atomic provNil m1 "a" [WithMeterProvider badProvider]
      badMeter "boom"
      [ SinkEvent.defCreated "cache.hit" "Number of cache hits",
        SinkEvent.defCreated "cache.miss" "Number of cache misses" ] rfl rfl).2.2
     m2 "b" [] (by decide)⟩

section ObservationLemmas

theorem int64OfUint64_small (n : Nat) (h : n < 2 ^ 63) : int64OfUint64 n = n := by
  unfold int64OfUint64
  have hlt : n < 2 ^ 64 := lt_trans h (by norm_num)
  rw [Nat.mod_eq_of_lt hlt, if_pos h]

theorem filter_observeEntry_self (name : String) (h : MetricsProvider) :
    (observeEntry name h).filter (fun o => o.cacheName == name) = observeEntry name h := by
  simp [observeEntry]

theorem filter_observeEntry_ne (n name : String) (h : MetricsProvider) (hne : n ≠ name) :
    (observeEntry n h).filter (fun o => o.cacheName == name) = [] := by
  simp [observeEntry, hne]

theorem callbackObservations_cons (e : String × MetricsProvider)
    (t : List (String × MetricsProvider)) :
    callbackObservations (e :: t) = observeEntry e.1 e.2 ++ callbackObservations t := rfl

theorem filter_callbackObservations_not_mem (name : String)
    (r : List (String × MetricsProvider)) (h : name ∉ r.map Prod.fst) :
    (callbackObservations r).filter (fun o => o.cacheName == name) = [] := by
  induction r with
  | nil => rfl
  | cons e t ih =>
    rw [List.map_cons, List.mem_cons] at h
    push_neg at h
    rw [callbackObservations_cons, List.filter_append,
      filter_observeEntry_ne e.1 name e.2 (fun he => h.1 he.symm), ih h.2]
    rfl

theorem callbackObservations_filter_eq (r : List (String × MetricsProvider))
    (name : String) (h : MetricsProvider)
    (hnd : (r.map Prod.fst).Nodup) (hmem : (name, h) ∈ r) :
    (callbackObservations r).filter (fun o => o.cacheName == name) = observeEntry name h := by
  induction r with
  | nil => cases hmem
  | cons e t ih =>
    rw [List.map_cons, List.nodup_cons] at hnd
    rcases List.mem_cons.mp hmem with heq | hmemt
    · have hn : e.1 = name := by rw [← heq]
      have hh : e.2 = h := by rw [← heq]
      rw [callbackObservations_cons, List.filter_append, hn, hh,
        filter_observeEntry_self name h,
        filter_callbackObservations_not_mem name t (hn ▸ hnd.1)]
      simp
    · have hin : name ∈ t.map Prod.fst := by
        have := List.mem_map_of_mem Prod.fst hmemt
        simpa using this
      have hne : e.1 ≠ name := fun hcontr => hnd.1 (hcontr ▸ hin)
      rw [callbackObservations_cons, List.filter_append,
        filter_observeEntry_ne e.1 name e.2 hne, ih hnd.2 hmemt]
      rfl

end ObservationLemmas

/-- Claim C2 (amended): for every registry whose names are distinct and
every registered entry, one invocation of the registered callback emits
exactly the six observations of that entry, one per metric, each tagged
with the entry's name and carrying the live counter converted by the Go
int64 cast; whenever the six counters are below 2 to the 63, that value
equals the counter itself. -/
theorem C2_callback_per_entry (r : List (String × MetricsProvider))
    (name : String) (h : MetricsProvider)
    (hnd : (r.map Prod.fst).Nodup) (hmem : (name, h) ∈ r) :
    (callbackObservations r).filter (fun o => o.cacheName == name) = observeEntry name h ∧
    (h.Hits < 2 ^ 63 → h.Misses < 2 ^ 63 → h.Inserts < 2 ^ 63 → h.Evictions < 2 ^ 63 →
     h.Collisions < 2 ^ 63 → h.Removals < 2 ^ 63 →
      observeEntry name h =
        [ ⟨"cache.hit", (h.Hits : Int), name⟩,
          ⟨"cache.miss", (h.Misses : Int), name⟩,
          ⟨"cache.insert", (h.Inserts : Int), name⟩,
          ⟨"cache.eviction", (h.Evictions : Int), name⟩,
          ⟨"cache.collision", (h.Collisions : Int), name⟩,
          ⟨"cache.removal", (h.Removals : Int), name⟩ ]) := by
  refine ⟨callbackObservations_filter_eq r name h hnd hmem, ?_⟩
  intro h1 h2 h3 h4 h5 h6
  unfold observeEntry
  rw [int64OfUint64_small _ h1, int64OfUint64_small _ h2, int64OfUint64_small _ h3,
    int64OfUint64_small _ h4, int64OfUint64_small _ h5, int64OfUint64_small _ h6]

/-- Witness for the amended C2 on a concrete two-entry registry. -/
theorem C2_callback_per_entry_witness :
    (callbackObservations [("a", m1), ("b", m2)]).filter (fun o => o.cacheName == "b") =
      observeEntry "b" m2 ∧
    observeEntry "b" m2 =
      [ ⟨"cache.hit", (m2.Hits : Int), "b"⟩,
        ⟨"cache.miss", (m2.Misses : Int), "b"⟩,
        ⟨"cache.insert", (m2.Inserts : Int), "b"⟩,
        ⟨"cache.eviction", (m2.Evictions : Int), "b"⟩,
        ⟨"cache.collision", (m2.Collisions : Int), "b"⟩,
        ⟨"cache.removal", (m2.Removals : Int), "b"⟩ ] :=
  ⟨(C2_callback_per_entry [("a", m1), ("b", m2)] "b" m2 (by decide) (by decide)).1,
   (C2_callback_per_entry [("a", m1), ("b", m2)] "b" m2 (by decide) (by decide)).2
     (by decide) (by decide) (by decide) (by decide) (by decide) (by decide)⟩

/-- Handle whose hit counter is two to the 63, a valid uint64 value. -/
def cexHandle : Metrics :=
  { Hits := 2 ^ 63, Misses := 0, Inserts := 0, Evictions := 0, Collisions := 0, Removals := 0 }

/-- Counterexample to C2 as stated: at a live hit counter of two to the
63 the callback does not emit an observation equal to the counter; the Go
int64 conversion makes the emitted value negative. -/
theorem C2_counterexample :
    cexHandle.Hits = 2 ^ 63 ∧
    ({ metricName := "cache.hit", value := ((2 : Int) ^ 63), cacheName := "c" } : Observation)
      ∉ callbackObservations [("c", cexHandle)] ∧
    ({ metricName := "cache.hit", value := -((2 : Int) ^ 63), cacheName := "c" } : Observation)
      ∈ callbackObservations [("c", cexHandle)] := by
  decide
